import Mathlib

/-!
Verification of the wireless-display media pipeline and session protocol.

The definitions below are a shallow embedding of the Rust sources:
  * the session/signaling controller and its HTTP offer handler
    (src/server/mod.rs, src/server/route.rs, function sdp_handler),
  * the transport-state observer registered on the peer connection
    (src/server/route.rs, the on_peer_connection_state_change closure),
  * the client depacketizer/reassembler
    (src/client/connect.rs, function process_video_track),
  * the mouse sampler normalization and its handoff channel
    (src/server/capture.rs, function capture_mouse).

External library effects (the webrtc transport, the H264 depacketizer, the
platform mouse poll) are modelled as explicit inputs: the handler receives the
handles the library would return and the Option result the library calls would
produce; the depacketizer receives the already-depacketized payload of each
RTP packet as an Option (none models a depacketize error).

Machine floating point (f64) in the mouse sampler is embedded as exact
rational arithmetic; the differences of i32 coordinates are exactly
representable in f64 and the claims under check concern exact quotient
values, so the rational model is faithful at every input the claims mention.
-/

namespace WirelessDisplay

/-! ### Session state (src/server/mod.rs) -/

/-- enum ConnectionState from src/server/mod.rs. -/
inductive ConnectionState
  | Disconnected
  | Connecting
  | Connected
deriving DecidableEq, Repr

/-- The webrtc library peer-connection states observable by the handler
registered in sdp_handler. -/
inductive RTCPeerConnectionState
  | Unspecified
  | New
  | Connecting
  | Connected
  | Disconnected
  | Failed
  | Closed
deriving DecidableEq, Repr

/-- struct SdpData from src/server/route.rs: the body of a POST /sdp request. -/
structure SdpData where
  sdp : String
  password : Option String
deriving DecidableEq, Repr

/-- The session-relevant fields of struct AppState from src/server/mod.rs.
The peer connection and video track are library objects; the model keeps only
their identity as a Nat handle, which is all the claims need. -/
structure AppState where
  password : Option String
  connection : ConnectionState
  peer_connection : Option Nat
  video_track : Option Nat
deriving DecidableEq, Repr

/-- Outcome of one call to sdp_handler, as seen by the HTTP caller:
authFailed models the `Invalid password` rejection, sessionBusy the
`Connection already in progress or established` rejection, localDescFailed
the `Failed to get local description` rejection, and answer the successful
JSON reply carrying the local description. -/
inductive SdpResult
  | authFailed
  | sessionBusy
  | answer (sdp : String)
  | localDescFailed
deriving DecidableEq, Repr

/-- The effects of the webrtc library during one sdp_handler call: the
identities of the freshly created peer connection and video track, and the
local description available at the end of gathering (none models
pc.local_description() returning None). -/
structure SdpEnv where
  pcHandle : Nat
  trackHandle : Nat
  localDesc : Option String
deriving DecidableEq, Repr

/-- The password gate at the top of sdp_handler: when a password is
configured it must equal the request field, a missing field being read as
the empty string (`sdp_data.password.unwrap_or_default()`). -/
def passwordOk (configured : Option String) (offered : Option String) : Bool :=
  match configured with
  | some pw => pw == offered.getD ""
  | none => true

/-- Sequential model of sdp_handler (src/server/route.rs lines 57 to 152),
mutation for mutation in source order: the password gate, the busy check,
then on acceptance the peer-connection handle store, the video-track store,
the transition to Connecting, and finally either the answer reply together
with the transition to Connected, or the local-description failure reply
which performs no rollback. -/
def sdp_handler (data : SdpData) (env : SdpEnv) (st : AppState) :
    SdpResult × AppState :=
  if passwordOk st.password data.password then
    if st.connection = ConnectionState.Disconnected then
      let st1 := { st with peer_connection := some env.pcHandle }
      let st2 := { st1 with video_track := some env.trackHandle }
      let st3 := { st2 with connection := ConnectionState.Connecting }
      match env.localDesc with
      | some desc =>
          (SdpResult.answer desc, { st3 with connection := ConnectionState.Connected })
      | none => (SdpResult.localDescFailed, st3)
    else
      (SdpResult.sessionBusy, st)
  else
    (SdpResult.authFailed, st)

/-- The transport-state observer installed by sdp_handler
(src/server/route.rs lines 110 to 123): on Disconnected, Closed or Failed it
resets the connection state and clears both handles; every other state
leaves the AppState untouched. -/
def on_peer_connection_state_change (s : RTCPeerConnectionState)
    (st : AppState) : AppState :=
  if s = RTCPeerConnectionState.Disconnected ∨ s = RTCPeerConnectionState.Closed
      ∨ s = RTCPeerConnectionState.Failed then
    { st with
        connection := ConnectionState.Disconnected
        peer_connection := none
        video_track := none }
  else
    st

/-! ### Interleaved execution of concurrent sdp_handler calls

In the source, the busy check (route.rs line 72) and the transition to
Connecting (line 125) take and release the connection mutex separately, with
several await points between them.  Each lock acquisition is therefore one
atomic step; two handler calls may interleave arbitrarily between steps.
The step machine below runs one handler call as a sequence of such atomic
steps over the shared AppState. -/

/-- Program counter of one in-flight sdp_handler call.  Each constructor is
one atomic access to the shared AppState (one mutex acquisition in the
source); done carries the result returned to that caller. -/
inductive TaskPhase
  | checkPassword
  | checkBusy
  | setPeer
  | setTrack
  | setConnecting
  | finalize
  | done (r : SdpResult)
deriving DecidableEq, Repr

/-- One in-flight sdp_handler call: its request, its library effects, and
its program counter. -/
structure SdpTask where
  data : SdpData
  env : SdpEnv
  phase : TaskPhase
deriving DecidableEq, Repr

/-- One atomic step of an in-flight sdp_handler call against the shared
AppState.  The steps and their order mirror route.rs: password gate
(line 62), busy check (line 72), peer-connection store (line 84),
video-track store (line 95), transition to Connecting (line 125), and the
final reply (lines 134 to 151). -/
def taskStep (t : SdpTask) (st : AppState) : SdpTask × AppState :=
  match t.phase with
  | TaskPhase.checkPassword =>
      if passwordOk st.password t.data.password then
        ({ t with phase := TaskPhase.checkBusy }, st)
      else
        ({ t with phase := TaskPhase.done SdpResult.authFailed }, st)
  | TaskPhase.checkBusy =>
      if st.connection = ConnectionState.Disconnected then
        ({ t with phase := TaskPhase.setPeer }, st)
      else
        ({ t with phase := TaskPhase.done SdpResult.sessionBusy }, st)
  | TaskPhase.setPeer =>
      ({ t with phase := TaskPhase.setTrack },
       { st with peer_connection := some t.env.pcHandle })
  | TaskPhase.setTrack =>
      ({ t with phase := TaskPhase.setConnecting },
       { st with video_track := some t.env.trackHandle })
  | TaskPhase.setConnecting =>
      ({ t with phase := TaskPhase.finalize },
       { st with connection := ConnectionState.Connecting })
  | TaskPhase.finalize =>
      match t.env.localDesc with
      | some desc =>
          ({ t with phase := TaskPhase.done (SdpResult.answer desc) },
           { st with connection := ConnectionState.Connected })
      | none =>
          ({ t with phase := TaskPhase.done SdpResult.localDescFailed }, st)
  | TaskPhase.done _ => (t, st)

/-- Run a schedule (a list of task indices) over a pool of in-flight
handler calls sharing one AppState; each schedule entry lets the named task
perform one atomic step. -/
def runSchedule : List Nat → List SdpTask × AppState → List SdpTask × AppState
  | [], s => s
  | i :: rest, (tasks, st) =>
      match tasks[i]? with
      | some t =>
          let p := taskStep t st
          runSchedule rest (tasks.set i p.1, p.2)
      | none => runSchedule rest (tasks, st)

/-! ### Depacketizer / reassembler (src/client/connect.rs) -/

/-- One inbound RTP packet as the depacketizer loop sees it
(process_video_track): the result of H264Packet depacketize on its payload
(none models an Err return), the header marker bit, and the header clock
timestamp.  Bytes are modelled as Nat. -/
structure RtpFragment where
  depacketized : Option (List Nat)
  marker : Bool
  timestamp : Nat
deriving DecidableEq, Repr

/-- struct WebRTCPacket of src/client/connect.rs: one reassembled access
unit handed to the decode task, carrying the bitstream bytes and the clock
timestamp of the fragment that completed it. -/
structure AccessUnit where
  data : List Nat
  timestamp : Nat
deriving DecidableEq, Repr

/-- The 4-byte Annex-B start code prepended to every NAL unit
(src/client/connect.rs line 128). -/
def start_code : List Nat := [0, 0, 0, 1]

/-- One iteration of the process_video_track loop body
(src/client/connect.rs lines 140 to 160) on the current reassembly buffer:
a successfully depacketized non-empty payload is appended behind a start
code (lines 141 to 147); an empty or failed depacketization leaves the
buffer alone. -/
def extendBuffer (buf : List Nat) (depacketized : Option (List Nat)) : List Nat :=
  match depacketized with
  | some payload => if payload.isEmpty then buf else buf ++ start_code ++ payload
  | none => buf

/-- The flush step of the loop body (src/client/connect.rs lines 149 to
160) after the buffer extension: when the marker bit is set and the buffer
is non-empty, the buffer is emitted as one access unit stamped with this
fragment timestamp and reset to empty. -/
def processFragment (buf : List Nat) (frag : RtpFragment) :
    List Nat × Option AccessUnit :=
  let buf1 := extendBuffer buf frag.depacketized
  if frag.marker && !buf1.isEmpty then
    ([], some ⟨buf1, frag.timestamp⟩)
  else
    (buf1, none)

/-- The process_video_track loop over a finite inbound fragment sequence:
returns the final reassembly buffer and the emitted access units in order. -/
def processFragments (buf : List Nat) : List RtpFragment → List Nat × List AccessUnit
  | [] => (buf, [])
  | f :: fs =>
      let p := processFragment buf f
      let q := processFragments p.1 fs
      (q.1, p.2.toList ++ q.2)

/-- The depacketized payload of a fragment, read as the empty list when
depacketize failed. -/
def depackPayload (f : RtpFragment) : List Nat :=
  f.depacketized.getD []

/-- Annex-B concatenation: each payload prefixed by the 4-byte start code. -/
def annexB (ps : List (List Nat)) : List Nat :=
  (ps.map (fun p => start_code ++ p)).flatten

/-- A fragment whose depacketization succeeded with a non-empty payload. -/
def validPayload (f : RtpFragment) : Prop :=
  f.depacketized ≠ none ∧ depackPayload f ≠ []

instance (f : RtpFragment) : Decidable (validPayload f) := by
  unfold validPayload
  infer_instance

/-! ### Mouse sampler (src/server/capture.rs, capture_mouse) -/

/-- struct CaptureDevice from src/server/capture.rs. -/
structure CaptureDevice where
  index : Nat
  name : String
  width : Nat
  height : Nat
  x : Int
  y : Int
deriving DecidableEq, Repr

/-- struct MousePosition from src/shared/mod.rs; the f64 coordinates are
embedded as exact rationals. -/
structure MousePosition where
  x : ℚ
  y : ℚ
deriving DecidableEq, Repr

/-- One poll iteration of capture_mouse (src/server/capture.rs lines 323 to
353) on a raw pointer position: per axis, the position relative to the
device origin divided by the device extent when the extent is positive and
0.0 otherwise, then replaced by the sentinel -1 unless it lies in [0, 1]. -/
def capture_mouse_sample (dev : CaptureDevice) (px py : Int) : MousePosition :=
  let relative_x : ℚ :=
    if 0 < dev.width then ((px : ℚ) - (dev.x : ℚ)) / (dev.width : ℚ) else 0
  let relative_y : ℚ :=
    if 0 < dev.height then ((py : ℚ) - (dev.y : ℚ)) / (dev.height : ℚ) else 0
  let clamped_x : ℚ := if 0 ≤ relative_x ∧ relative_x ≤ 1 then relative_x else -1
  let clamped_y : ℚ := if 0 ≤ relative_y ∧ relative_y ≤ 1 then relative_y else -1
  ⟨clamped_x, clamped_y⟩

/-- Modelled from the spec wording of section 4.3 for one axis: position
relative to the CaptureDevice origin divided by the CaptureDevice extent,
passed through when in [0, 1] and replaced by the sentinel -1 otherwise
(no guard on the extent). -/
def spec_axis (p origin : Int) (extent : Nat) : ℚ :=
  let q : ℚ := ((p : ℚ) - (origin : ℚ)) / (extent : ℚ)
  if 0 ≤ q ∧ q ≤ 1 then q else -1

/-- Modelled from the spec wording: both axes of the published sample. -/
def spec_normalize (dev : CaptureDevice) (px py : Int) : MousePosition :=
  ⟨spec_axis px dev.x dev.width, spec_axis py dev.y dev.height⟩

/-- Capacity of the sampler-to-sender handoff channel
(src/server/capture.rs line 288: mpsc channel of capacity 64). -/
def mouse_channel_capacity : Nat := 64

/-- The non-blocking enqueue the sampler performs
(src/server/capture.rs line 355, tx.try_send): the sample is appended when
the channel holds fewer than 64 pending samples and is dropped otherwise;
pending samples are never overwritten. -/
def try_send (q : List MousePosition) (x : MousePosition) : List MousePosition :=
  if q.length < mouse_channel_capacity then q ++ [x] else q

/-- The receive the sender task performs (src/server/capture.rs line 296,
rx.recv): the oldest pending sample is removed and returned. -/
def channel_recv (q : List MousePosition) : Option MousePosition × List MousePosition :=
  match q with
  | [] => (none, [])
  | x :: rest => (some x, rest)

/-! ### Theorems: session / signaling -/

/-- The interleaved step machine agrees with the sequential model: a
schedule that lets one handler call run all of its steps alone ends with
that call done, holding exactly the result and final state of sdp_handler. -/
theorem runSchedule_solo (data : SdpData) (env : SdpEnv) (st : AppState) :
    runSchedule [0, 0, 0, 0, 0, 0] ([⟨data, env, TaskPhase.checkPassword⟩], st) =
      ([⟨data, env, TaskPhase.done (sdp_handler data env st).1⟩],
       (sdp_handler data env st).2) := by
  by_cases hp : passwordOk st.password data.password = true
  · by_cases hb : st.connection = ConnectionState.Disconnected
    · cases henv : env.localDesc <;>
        simp [runSchedule, taskStep, sdp_handler, hp, hb, henv]
    · simp [runSchedule, taskStep, sdp_handler, hp, hb]
  · simp [runSchedule, taskStep, sdp_handler, hp]

/-- C2: an offer whose credential does not equal the configured password is
rejected with AuthFailed, and the whole AppState — connection state,
peer-transport handle and track handle — is returned unchanged. -/
theorem sdp_wrong_password_rejected (data : SdpData) (env : SdpEnv)
    (st : AppState) (pw : String)
    (hpw : st.password = some pw) (hne : data.password.getD "" ≠ pw) :
    sdp_handler data env st = (SdpResult.authFailed, st) := by
  have hfalse : passwordOk st.password data.password = false := by
    simp [passwordOk, hpw]
    exact fun h => hne h.symm
  unfold sdp_handler
  simp [hfalse]

/-- Witness for C2 at a concrete busy state and mismatched password. -/
theorem sdp_wrong_password_rejected_witness :
    sdp_handler ⟨"offer", some "guess"⟩ ⟨3, 4, some "ans"⟩
        ⟨some "secret", ConnectionState.Connected, some 1, some 2⟩ =
      (SdpResult.authFailed,
       ⟨some "secret", ConnectionState.Connected, some 1, some 2⟩) :=
  sdp_wrong_password_rejected _ _ _ "secret" rfl (by decide)

/-- C3 counterexample: an offer arriving while the session is Connecting
but carrying a wrong password is rejected with AuthFailed, not SessionBusy,
because the password gate runs before the busy check. -/
theorem sdp_busy_bad_password_not_busy :
    (sdp_handler ⟨"offer", some "wrong"⟩ ⟨0, 0, some "ans"⟩
        ⟨some "secret", ConnectionState.Connecting, some 5, some 6⟩).1 =
      SdpResult.authFailed ∧
    SdpResult.authFailed ≠ SdpResult.sessionBusy := by
  constructor
  · rfl
  · decide

/-- C3 amended: an offer that passes the password gate and arrives while
the session state is not Disconnected is rejected with SessionBusy, state
unchanged. -/
theorem sdp_busy_rejected (data : SdpData) (env : SdpEnv) (st : AppState)
    (hpw : passwordOk st.password data.password = true)
    (hbusy : st.connection ≠ ConnectionState.Disconnected) :
    sdp_handler data env st = (SdpResult.sessionBusy, st) := by
  unfold sdp_handler
  rw [if_pos hpw, if_neg hbusy]

/-- Witness for the amended C3 at a concrete Connecting state. -/
theorem sdp_busy_rejected_witness :
    sdp_handler ⟨"offer", some "secret"⟩ ⟨0, 0, some "ans"⟩
        ⟨some "secret", ConnectionState.Connecting, some 5, some 6⟩ =
      (SdpResult.sessionBusy,
       ⟨some "secret", ConnectionState.Connecting, some 5, some 6⟩) :=
  sdp_busy_rejected _ _ _ (by decide) (by decide)

/-- C4 counterexample: when the transport yields no local description the
handler returns a failure to the caller, yet the session has moved to
Connecting and both handles now hold the fresh transport and track — the
rejected offer did not leave the state as it was. -/
theorem sdp_local_desc_failure_corrupts_state :
    sdp_handler ⟨"offer", none⟩ ⟨7, 8, none⟩
        ⟨none, ConnectionState.Disconnected, none, none⟩ =
      (SdpResult.localDescFailed,
       ⟨none, ConnectionState.Connecting, some 7, some 8⟩) ∧
    (⟨none, ConnectionState.Connecting, some 7, some 8⟩ : AppState) ≠
      ⟨none, ConnectionState.Disconnected, none, none⟩ := by
  constructor
  · rfl
  · decide

/-- C4 amended: the AuthFailed and SessionBusy rejection paths return the
AppState — connection state and both handles — exactly as it was; the
remaining failure path (no local description) is the one the
counterexample exhibits. -/
theorem sdp_early_rejection_preserves_state (data : SdpData) (env : SdpEnv)
    (st : AppState)
    (h : (sdp_handler data env st).1 = SdpResult.authFailed ∨
         (sdp_handler data env st).1 = SdpResult.sessionBusy) :
    (sdp_handler data env st).2 = st := by
  unfold sdp_handler at h ⊢
  by_cases hp : passwordOk st.password data.password = true
  · rw [if_pos hp] at h ⊢
    by_cases hb : st.connection = ConnectionState.Disconnected
    · rw [if_pos hb] at h ⊢
      cases henv : env.localDesc <;> rw [henv] at h <;> simp at h
    · rw [if_neg hb] at h ⊢
  · simp [hp] at h ⊢

/-- Witness for the amended C4 at a concrete busy state. -/
theorem sdp_early_rejection_preserves_state_witness :
    (sdp_handler ⟨"offer", none⟩ ⟨0, 0, some "ans"⟩
        ⟨none, ConnectionState.Connected, some 1, some 2⟩).2 =
      ⟨none, ConnectionState.Connected, some 1, some 2⟩ :=
  sdp_early_rejection_preserves_state _ _ _ (Or.inr rfl)

/-- C5: on a terminal transport report (Disconnected, Closed or Failed) the
observer resets the session to Disconnected and clears the peer-transport
and video-track handles, and a subsequent offer that passes the password
gate is accepted — it reaches the answer reply whenever the transport
yields a local description. -/
theorem observer_terminal_resets (s : RTCPeerConnectionState) (st : AppState)
    (hterm : s = RTCPeerConnectionState.Disconnected ∨
             s = RTCPeerConnectionState.Closed ∨
             s = RTCPeerConnectionState.Failed) :
    (on_peer_connection_state_change s st).connection = ConnectionState.Disconnected ∧
    (on_peer_connection_state_change s st).peer_connection = none ∧
    (on_peer_connection_state_change s st).video_track = none ∧
    ∀ (data : SdpData) (env : SdpEnv) (desc : String),
      passwordOk st.password data.password = true →
      env.localDesc = some desc →
      (sdp_handler data env (on_peer_connection_state_change s st)).1 =
        SdpResult.answer desc := by
  have hres : on_peer_connection_state_change s st =
      { st with
          connection := ConnectionState.Disconnected
          peer_connection := none
          video_track := none } := by
    unfold on_peer_connection_state_change
    rw [if_pos hterm]
  refine ⟨by rw [hres], by rw [hres], by rw [hres], ?_⟩
  intro data env desc hpw henv
  rw [hres]
  unfold sdp_handler
  simp [hpw, henv]

/-- Witness for C5: a Failed report on a Connected session, followed by a
valid offer. -/
theorem observer_terminal_resets_witness :
    (on_peer_connection_state_change RTCPeerConnectionState.Failed
        ⟨some "secret", ConnectionState.Connected, some 1, some 2⟩).connection =
      ConnectionState.Disconnected ∧
    (sdp_handler ⟨"offer", some "secret"⟩ ⟨3, 4, some "ans"⟩
        (on_peer_connection_state_change RTCPeerConnectionState.Failed
          ⟨some "secret", ConnectionState.Connected, some 1, some 2⟩)).1 =
      SdpResult.answer "ans" := by
  have h := observer_terminal_resets RTCPeerConnectionState.Failed
    ⟨some "secret", ConnectionState.Connected, some 1, some 2⟩
    (Or.inr (Or.inr rfl))
  exact ⟨h.1, h.2.2.2 ⟨"offer", some "secret"⟩ ⟨3, 4, some "ans"⟩ "ans" (by decide) rfl⟩

/-- C1: the code violates the claim.  The busy check and the transition to
Connecting take the connection mutex separately, so under the alternating
schedule below two concurrent offers, both with the correct password and
both starting from Disconnected, both pass the busy check and both are
accepted: neither caller receives SessionBusy, both observe Disconnected,
and the second call overwrites the handles stored by the first. -/
theorem sdp_concurrent_offers_both_accepted :
    runSchedule [0, 1, 0, 1, 0, 1, 0, 1, 0, 1, 0, 1]
        ([⟨⟨"offer", some "pw"⟩, ⟨10, 20, some "ansA"⟩, TaskPhase.checkPassword⟩,
          ⟨⟨"offer", some "pw"⟩, ⟨11, 21, some "ansB"⟩, TaskPhase.checkPassword⟩],
         ⟨some "pw", ConnectionState.Disconnected, none, none⟩) =
      ([⟨⟨"offer", some "pw"⟩, ⟨10, 20, some "ansA"⟩,
          TaskPhase.done (SdpResult.answer "ansA")⟩,
        ⟨⟨"offer", some "pw"⟩, ⟨11, 21, some "ansB"⟩,
          TaskPhase.done (SdpResult.answer "ansB")⟩],
       ⟨some "pw", ConnectionState.Connected, some 11, some 21⟩) := by
  rfl

/-! ### Theorems: depacketizer / reassembler -/

/-- A fragment with a valid payload exposes it through depackPayload. -/
theorem validPayload_some (f : RtpFragment) (h : validPayload f) :
    f.depacketized = some (depackPayload f) ∧ depackPayload f ≠ [] := by
  obtain ⟨hne, hnonempty⟩ := h
  refine ⟨?_, hnonempty⟩
  unfold depackPayload
  cases hd : f.depacketized with
  | none => exact absurd hd hne
  | some p => simp

/-- A marker-clear fragment with a valid payload only grows the buffer. -/
theorem processFragment_append (buf : List Nat) (f : RtpFragment)
    (hm : f.marker = false) (hp : validPayload f) :
    processFragment buf f = (buf ++ start_code ++ depackPayload f, none) := by
  obtain ⟨hsome, hne⟩ := validPayload_some f hp
  unfold processFragment extendBuffer
  rw [hsome, hm]
  simp [hne]

/-- Running a block of marker-clear valid fragments turns the buffer into
the original buffer followed by their Annex-B concatenation. -/
theorem processFragments_mid (mid : List RtpFragment) :
    ∀ (rest : List RtpFragment) (buf : List Nat),
      (∀ f ∈ mid, f.marker = false ∧ validPayload f) →
      processFragments buf (mid ++ rest) =
        processFragments (buf ++ annexB (mid.map depackPayload)) rest := by
  induction mid with
  | nil => intro rest buf _; simp [annexB]
  | cons f fs ih =>
      intro rest buf h
      obtain ⟨hm, hp⟩ := h f (by simp)
      have hstep := processFragment_append buf f hm hp
      simp only [List.cons_append, processFragments, hstep, Option.toList_none,
        List.nil_append, List.append_eq]
      rw [ih rest _ (fun g hg => h g (by simp [hg]))]
      simp [annexB]

/-- C6: a fragment block of one access unit — marker-clear valid fragments
followed by one marker-set valid fragment — fed to an empty buffer yields
exactly one emitted access unit, equal to the start-code-prefixed
concatenation of all the payloads, stamped with the marker fragment
timestamp, and leaves the buffer empty. -/
theorem depacketizer_round_trip (mid : List RtpFragment) (last : RtpFragment)
    (hmid : ∀ f ∈ mid, f.marker = false ∧ validPayload f)
    (hmarker : last.marker = true) (hlast : validPayload last) :
    processFragments [] (mid ++ [last]) =
      ([], [⟨annexB ((mid ++ [last]).map depackPayload), last.timestamp⟩]) := by
  rw [processFragments_mid mid [last] [] hmid]
  obtain ⟨hsome, hne⟩ := validPayload_some last hlast
  simp only [List.nil_append, processFragments, processFragment, hsome, hmarker]
  simp [extendBuffer, hne, annexB, start_code, List.append_assoc]

/-- Witness for C6: fragments with payloads [9], [8, 7] and marker-set [6]
reassemble into one access unit with all three start codes, stamped with
the marker fragment timestamp 300. -/
theorem depacketizer_round_trip_witness :
    processFragments []
        ([⟨some [9], false, 100⟩, ⟨some [8, 7], false, 200⟩] ++
          [⟨some [6], true, 300⟩]) =
      ([], [⟨annexB ([[9], [8, 7], [6]]), 300⟩]) :=
  depacketizer_round_trip
    [⟨some [9], false, 100⟩, ⟨some [8, 7], false, 200⟩]
    ⟨some [6], true, 300⟩ (by decide) (by decide) (by decide)

/-- Every emission of processFragment carries a non-empty byte sequence. -/
theorem processFragment_emits_nonempty (buf : List Nat) (f : RtpFragment)
    (b : List Nat) (u : AccessUnit)
    (h : processFragment buf f = (b, some u)) : u.data ≠ [] := by
  simp only [processFragment] at h
  split at h
  · next hcond =>
      simp only [Prod.mk.injEq, Option.some.injEq] at h
      obtain ⟨-, hu⟩ := h
      subst hu
      simp only [Bool.and_eq_true, Bool.not_eq_true'] at hcond
      simpa using hcond.2
  · exact absurd (congrArg Prod.snd h) (by simp)

/-- Emitted access units over any run are exactly the non-empty flushes. -/
theorem processFragments_units_nonempty (frags : List RtpFragment) :
    ∀ (buf : List Nat), ∀ u ∈ (processFragments buf frags).2, u.data ≠ [] := by
  induction frags with
  | nil => intro buf u hu; simp [processFragments] at hu
  | cons f fs ih =>
      intro buf u hu
      simp only [processFragments, List.mem_append] at hu
      cases hu with
      | inl h1 =>
          cases hp : (processFragment buf f).2 with
          | none => rw [hp] at h1; simp at h1
          | some v =>
              rw [hp] at h1
              simp only [Option.toList_some, List.mem_singleton] at h1
              subst h1
              exact processFragment_emits_nonempty buf f
                (processFragment buf f).1 u (by rw [← hp])
      | inr h2 => exact ih (processFragment buf f).1 u h2

/-- C7: the depacketizer never emits a zero-length access unit — over every
fragment sequence and starting buffer every emitted unit is non-empty —
and a marker-set fragment whose payload is empty or failed to depacketize,
arriving on an empty buffer, emits nothing. -/
theorem depacketizer_no_empty_units :
    (∀ (buf : List Nat) (frags : List RtpFragment),
        ∀ u ∈ (processFragments buf frags).2, u.data ≠ []) ∧
    (∀ f : RtpFragment, f.marker = true →
        f.depacketized = some [] ∨ f.depacketized = none →
        processFragment [] f = ([], none)) := by
  constructor
  · intro buf frags
    exact processFragments_units_nonempty frags buf
  · intro f _ hpay
    cases hpay with
    | inl h => simp [processFragment, extendBuffer, h]
    | inr h => simp [processFragment, extendBuffer, h]

/-- Witness for C7: the single emitted unit of a one-fragment run is
non-empty, and a marker-set empty-payload fragment on an empty buffer
emits nothing. -/
theorem depacketizer_no_empty_units_witness :
    (⟨[0, 0, 0, 1, 7], 42⟩ : AccessUnit).data ≠ [] ∧
    processFragment [] ⟨some [], true, 42⟩ = ([], none) :=
  ⟨depacketizer_no_empty_units.1 [] [⟨some [7], true, 42⟩]
      ⟨[0, 0, 0, 1, 7], 42⟩ (by decide),
   depacketizer_no_empty_units.2 ⟨some [], true, 42⟩ rfl (Or.inl rfl)⟩

/-! ### Theorems: mouse sampler -/

/-- C8: on every device with positive extent the sampled position is
exactly the spec formula — relative offset divided by extent per axis,
passed through when in [0, 1] and the sentinel -1 otherwise — and the two
quoted instances hold: a 1920 by 1080 device at the origin maps raw
(960, 540) to (1/2, 1/2) and raw (-10, 540) to (-1, 1/2). -/
theorem capture_mouse_matches_spec (dev : CaptureDevice) (px py : Int)
    (hw : 0 < dev.width) (hh : 0 < dev.height) :
    capture_mouse_sample dev px py = spec_normalize dev px py ∧
    capture_mouse_sample ⟨0, "m", 1920, 1080, 0, 0⟩ 960 540 = ⟨1 / 2, 1 / 2⟩ ∧
    capture_mouse_sample ⟨0, "m", 1920, 1080, 0, 0⟩ (-10) 540 = ⟨-1, 1 / 2⟩ := by
  refine ⟨?_, ?_, ?_⟩
  · unfold capture_mouse_sample spec_normalize spec_axis
    rw [if_pos hw, if_pos hh]
  · norm_num [capture_mouse_sample]
  · norm_num [capture_mouse_sample]

/-- Witness for C8 at the device quoted in the spec. -/
theorem capture_mouse_matches_spec_witness :
    capture_mouse_sample ⟨0, "m", 1920, 1080, 0, 0⟩ 960 540 =
      spec_normalize ⟨0, "m", 1920, 1080, 0, 0⟩ 960 540 :=
  (capture_mouse_matches_spec ⟨0, "m", 1920, 1080, 0, 0⟩ 960 540
    (by decide) (by decide)).1

/-- C9 counterexample: the sampler-to-sender handoff is not a single-slot
latest-value mailbox.  Publishing two samples with no consumption leaves
two pending at once, and the sender then receives the older of the two,
not the most recently published one. -/
theorem mouse_mailbox_not_single_slot :
    (try_send (try_send [] ⟨0, 0⟩) ⟨1, 1⟩).length = 2 ∧
    (channel_recv (try_send (try_send [] ⟨0, 0⟩) ⟨1, 1⟩)).1 = some ⟨0, 0⟩ ∧
    (⟨0, 0⟩ : MousePosition) ≠ ⟨1, 1⟩ := by
  decide

/-- C9 amended: the handoff is a bounded first-in-first-out queue of
capacity 64 with a non-blocking enqueue: below capacity the new sample is
appended, at capacity the newly published sample is dropped and the
pending ones are never overwritten, the queue never exceeds capacity, and
the sender always consumes the oldest pending sample. -/
theorem mouse_mailbox_bounded_fifo (q : List MousePosition) (x : MousePosition) :
    (q.length < mouse_channel_capacity → try_send q x = q ++ [x]) ∧
    (mouse_channel_capacity ≤ q.length → try_send q x = q) ∧
    (q.length ≤ mouse_channel_capacity →
      (try_send q x).length ≤ mouse_channel_capacity) ∧
    (∀ (y : MousePosition) (rest : List MousePosition),
        q = y :: rest → channel_recv q = (some y, rest)) := by
  refine ⟨?_, ?_, ?_, ?_⟩
  · intro h
    simp [try_send, h]
  · intro h
    simp [try_send, Nat.not_lt.mpr h]
  · intro h
    unfold try_send
    split
    · next hlt => simp only [List.length_append, List.length_cons, List.length_nil]; omega
    · exact h
  · intro y rest hq
    subst hq
    rfl

/-- Witness for the amended C9: an enqueue below capacity appends, and the
receiver takes the oldest sample first. -/
theorem mouse_mailbox_bounded_fifo_witness :
    try_send [⟨0, 0⟩] ⟨1, 1⟩ = [⟨0, 0⟩, ⟨1, 1⟩] ∧
    channel_recv [⟨0, 0⟩, ⟨1, 1⟩] = (some ⟨0, 0⟩, [⟨1, 1⟩]) :=
  ⟨(mouse_mailbox_bounded_fifo [⟨0, 0⟩] ⟨1, 1⟩).1 (by decide),
   (mouse_mailbox_bounded_fifo [⟨0, 0⟩, ⟨1, 1⟩] ⟨2, 2⟩).2.2.2 ⟨0, 0⟩ [⟨1, 1⟩] rfl⟩

/-- C10: normalization is total on zero-extent devices — a zero width
publishes x = 0 and a zero height publishes y = 0, the guarded branch never
dividing by the extent. -/
theorem mouse_zero_extent_total (dev : CaptureDevice) (px py : Int) :
    (dev.width = 0 → (capture_mouse_sample dev px py).x = 0) ∧
    (dev.height = 0 → (capture_mouse_sample dev px py).y = 0) := by
  constructor
  · intro h
    simp [capture_mouse_sample, h]
  · intro h
    simp [capture_mouse_sample, h]

/-- Witness for C10 on a device of zero width and height. -/
theorem mouse_zero_extent_total_witness :
    (capture_mouse_sample ⟨0, "m", 0, 0, 3, 4⟩ 9 9).x = 0 ∧
    (capture_mouse_sample ⟨0, "m", 0, 0, 3, 4⟩ 9 9).y = 0 :=
  ⟨(mouse_zero_extent_total ⟨0, "m", 0, 0, 3, 4⟩ 9 9).1 rfl,
   (mouse_zero_extent_total ⟨0, "m", 0, 0, 3, 4⟩ 9 9).2 rfl⟩

end WirelessDisplay
